/-
Verification of the MCP tool-invocation subsystem of the chat backend.

The definitions below are shallow embeddings of the Python source:
  * backend/app/services/mcp.py   (tool-name encoding, catalog building,
    filesystem pseudo-tools, workspace-path validation, request-id counters)
  * backend/app/api/sessions.py   (the conversation-orchestrator turn loop,
    retrieved-context shaping)
Python strings are modelled as Lean `String` (with character-list reasoning
through `String.data` where structural proofs are needed); Python dicts that
carry JSON payloads are modelled by a small `Json` inductive; functions of the
Python standard library (`json.loads`, `json.dumps`) and external effects
(model inference, MCP tool execution, the filesystem) are oracle parameters.
A Python function that can raise is embedded as a function into `Except`.
-/
import Mathlib

namespace ChatApp

/-! ## Tool-name encoding (mcp.py lines 17, 344-351)

`_TOOL_NAME_SEPARATOR = "__"`.  `_encode_tool_name` is a plain f-string
concatenation; `decode_tool_name` raises when the separator is absent and
otherwise uses `encoded.split("__", 1)`, i.e. splits at the FIRST occurrence
of the separator. -/

/-- Characters of the separator `"__"`. -/
def sepChars : List Char := ['_', '_']

/-- Split a character list at the first occurrence of `"__"`: returns the
characters before the occurrence and the characters after it, or `none` when
the separator does not occur.  This is exactly the behaviour of Python's
`encoded.split("__", 1)` guarded by `"__" in encoded`. -/
def splitFirstSep : List Char → Option (List Char × List Char)
  | [] => none
  | c :: rest =>
    if c = '_' ∧ rest.head? = some '_' then
      some ([], rest.tail)
    else
      (splitFirstSep rest).map (fun p => (c :: p.1, p.2))

/-- Python's `"__" in s`. -/
def containsSep (s : String) : Bool := (splitFirstSep s.data).isSome

/-- `MCPService._encode_tool_name` (mcp.py 344-345):
`return f"{server_name}{_TOOL_NAME_SEPARATOR}{tool_name}"`. -/
def encodeToolName (serverName toolName : String) : String :=
  serverName ++ "__" ++ toolName

/-- `MCPService.decode_tool_name` (mcp.py 347-351): raises `ValueError` when
the separator is absent, otherwise `encoded.split("__", 1)`. -/
def decodeToolName (encoded : String) : Except String (String × String) :=
  match splitFirstSep encoded.data with
  | none => Except.error ("Malformed tool name '" ++ encoded ++ "'")
  | some p => Except.ok (String.mk p.1, String.mk p.2)

theorem splitFirstSep_cons (c : Char) (rest : List Char) :
    splitFirstSep (c :: rest) =
      if c = '_' ∧ rest.head? = some '_' then some ([], rest.tail)
      else (splitFirstSep rest).map (fun p => (c :: p.1, p.2)) := rfl

theorem splitFirstSep_append_sep (s t : List Char)
    (hs : splitFirstSep s = none) (hlast : s.getLast? ≠ some '_') :
    splitFirstSep (s ++ '_' :: '_' :: t) = some (s, t) := by
  induction s with
  | nil => simp [splitFirstSep]
  | cons c s' ih =>
    have hcond : ¬ (c = '_' ∧ s'.head? = some '_') := by
      intro hc
      simp [splitFirstSep_cons, hc] at hs
    have hs' : splitFirstSep s' = none := by
      rw [splitFirstSep_cons, if_neg hcond] at hs
      exact Option.map_eq_none'.mp hs
    cases s' with
    | nil =>
      have hc : c ≠ '_' := by
        intro h
        exact hlast (by simp [h])
      simp [splitFirstSep_cons, splitFirstSep, hc]
    | cons d s'' =>
      have hlast' : (d :: s'').getLast? ≠ some '_' := by
        simpa [List.getLast?_cons_cons] using hlast
      have hrec := ih hs' hlast'
      have hcond2 : ¬ (c = '_' ∧ ((d :: s'') ++ '_' :: '_' :: t).head? = some '_') := by
        simpa using hcond
      rw [List.cons_append, splitFirstSep_cons, if_neg hcond2, hrec]
      rfl

theorem splitFirstSep_append_sep_isSome (s t : List Char) :
    (splitFirstSep (s ++ '_' :: '_' :: t)).isSome = true := by
  induction s with
  | nil => simp [splitFirstSep]
  | cons c s' ih =>
    rw [List.cons_append, splitFirstSep_cons]
    by_cases hc : c = '_' ∧ (s' ++ '_' :: '_' :: t).head? = some '_'
    · rw [if_pos hc]; rfl
    · rw [if_neg hc]
      simpa using ih

theorem encodeToolName_data (s t : String) :
    (encodeToolName s t).data = s.data ++ '_' :: '_' :: t.data := by
  have hsep : ("__" : String).data = ['_', '_'] := rfl
  simp [encodeToolName, String.data_append, hsep]

/-- **C1, counterexample.**  The claim asserts the round trip
`decode_tool_name (_encode_tool_name s t) = (s, t)` for every `s`, `t` not
containing `"__"`.  It fails for `s = "a_"`, `t = "b"`: neither name contains
the separator, yet the encoded name is `"a___b"`, whose FIRST occurrence of
`"__"` starts inside `s`, so decoding returns `("a", "_b")` instead. -/
theorem c1_roundtrip_counterexample :
    containsSep "a_" = false ∧ containsSep "b" = false ∧
    decodeToolName (encodeToolName "a_" "b") = Except.ok ("a", "_b") ∧
    decodeToolName (encodeToolName "a_" "b") ≠ Except.ok ("a_", "b") := by
  refine ⟨rfl, rfl, rfl, ?_⟩
  intro h
  rw [show decodeToolName (encodeToolName "a_" "b") = Except.ok ("a", "_b") from rfl] at h
  have h1 : ("a" : String) = "a_" := congrArg Prod.fst (Except.ok.inj h)
  exact absurd h1 (by decide)

/-- **C1, amended.**  For every server name `s` that does not contain the
separator `"__"` AND does not end with the character `'_'`, and every tool
name `t` not containing the separator, decoding the encoded tool name returns
the original pair. -/
theorem c1_decode_encode_roundtrip (s t : String)
    (hs : containsSep s = false) (hlast : s.data.getLast? ≠ some '_')
    (ht : containsSep t = false) :
    decodeToolName (encodeToolName s t) = Except.ok (s, t) := by
  have hnone : splitFirstSep s.data = none := by
    cases h : splitFirstSep s.data with
    | none => rfl
    | some p => rw [containsSep, h] at hs; simp at hs
  have hsplit := splitFirstSep_append_sep s.data t.data hnone hlast
  rw [decodeToolName, encodeToolName_data, hsplit]

/-- Witness for `c1_decode_encode_roundtrip` at `s = "srv"`, `t = "tool"`. -/
theorem c1_decode_encode_roundtrip_witness :
    decodeToolName (encodeToolName "srv" "tool") = Except.ok ("srv", "tool") :=
  c1_decode_encode_roundtrip "srv" "tool" (by decide) (by decide) (by decide)

/-- **C4, counterexample.**  The claim asserts that encoding fails when the
server or tool name contains the separator.  In the source,
`_encode_tool_name` is a plain f-string concatenation that cannot fail: for
`server = "a__b"`, `tool = "c"` (a server name embedding the separator) it
silently produces `"a__b__c"` — and decoding that name even succeeds,
returning the different pair `("a", "b__c")`. -/
theorem c4_encode_fails_counterexample :
    containsSep "a__b" = true ∧
    encodeToolName "a__b" "c" = "a__b__c" ∧
    decodeToolName (encodeToolName "a__b" "c") = Except.ok ("a", "b__c") :=
  ⟨rfl, rfl, rfl⟩

/-- **C4, amended.**  Encoding never fails: for every server name and tool
name — including names that contain the separator `"__"` — `_encode_tool_name`
silently produces the concatenated name, and the produced name always contains
the separator, so `decode_tool_name` accepts it (possibly returning a pair
different from the original). -/
theorem c4_encode_never_fails (s t : String) :
    containsSep (encodeToolName s t) = true ∧
    ∃ p, decodeToolName (encodeToolName s t) = Except.ok p := by
  have hsome : (splitFirstSep (encodeToolName s t).data).isSome = true := by
    rw [encodeToolName_data]
    exact splitFirstSep_append_sep_isSome s.data t.data
  constructor
  · exact hsome
  · rcases Option.isSome_iff_exists.mp hsome with ⟨p, hp⟩
    exact ⟨(String.mk p.1, String.mk p.2), by rw [decodeToolName, hp]⟩

/-! ## Workspace-path validation and filesystem pseudo-tools
(mcp.py lines 242-271 `_handle_filesystem_tool`, 273-288 `_wrap_text_result`,
340-342 `_validate_workspace_path`)

Paths are modelled as strings; `(workspace_root / rel_path).resolve()` is
modelled symlink-free: `pathlib`'s `/` replaces the left operand when the
right one is absolute, and `resolve` normalises `.`/`..` components of an
absolute path.  The filesystem itself (`exists`, `is_dir`, `is_file`,
`os.listdir`, `read_text`) is an oracle mapping a resolved path to what is
found there. -/

/-- Split a character list on `'/'`. -/
def splitSlashAux : List Char → List Char → List String
  | acc, [] => [String.mk acc.reverse]
  | acc, c :: rest =>
    if c = '/' then String.mk acc.reverse :: splitSlashAux [] rest
    else splitSlashAux (c :: acc) rest

def splitSlash (s : String) : List String := splitSlashAux [] s.data

/-- Python `str.startswith`. -/
def pyStartswith (s pre : String) : Bool := pre.data.isPrefixOf s.data

def joinComponents : List String → String
  | [] => ""
  | [c] => c
  | c :: rest => c ++ "/" ++ joinComponents rest

/-- `(workspace_root / rel_path).resolve()` for an already-resolved absolute
`root`, assuming no symlinks: join (an absolute `rel` replaces `root`), then
normalise empty, `"."` and `".."` components. -/
def resolvePath (root rel : String) : String :=
  let joined := if rel.data.head? = some '/' then rel else root ++ "/" ++ rel
  let comps := (splitSlash joined).filter (fun c => !(c == "") && !(c == "."))
  let finalComps :=
    comps.foldl (fun acc c => if c == ".." then acc.dropLast else acc ++ [c])
      ([] : List String)
  "/" ++ joinComponents finalComps

/-- `MCPService._validate_workspace_path` (mcp.py 340-342):
`str(target).startswith(str(self.workspace_root.resolve()))`; returns `false`
exactly when the code raises `ValueError("Path escapes workspace root")`. -/
def validateWorkspacePath (resolvedRoot target : String) : Bool :=
  pyStartswith target resolvedRoot

/-- The property the spec demands of the guard: the resolved target IS the
workspace root or lies strictly below it.  (Stated from the spec, for
comparison with `validateWorkspacePath`.) -/
def insideWorkspaceRoot (resolvedRoot target : String) : Bool :=
  target == resolvedRoot || pyStartswith target (resolvedRoot ++ "/")

/-- What the filesystem oracle can find at a resolved path. -/
inductive FsNode where
  | dir (entries : List String)
  | file (content : String)
deriving DecidableEq

/-- Minimal JSON value model for tool schemas, arguments and payloads. -/
inductive Json where
  | null
  | bool (b : Bool)
  | num (n : Int)
  | str (s : String)
  | arr (items : List Json)
  | obj (fields : List (String × Json))

def Json.isObj : Json → Bool
  | .obj _ => true
  | _ => false

/-- The normalized tool-result envelope.  The source returns a dict with keys
`content`, `isError`, `text` (plus audit copies `raw`/`data` that the
orchestrator never branches on and that are omitted here). -/
structure ToolOutput where
  content : List Json
  isError : Bool
  text : String

/-- `MCPService._wrap_text_result` (mcp.py 273-288), restricted to the fields
kept in `ToolOutput`. -/
def wrapTextResult (text : String) : ToolOutput :=
  { content := [Json.obj [("type", Json.str "text"), ("text", Json.str text)]]
    isError := false
    text := text }

/-- Insertion into a list sorted by code-point order (models Python
`sorted`). -/
def charListLe : List Char → List Char → Bool
  | [], _ => true
  | _ :: _, [] => false
  | a :: as, b :: bs => if a = b then charListLe as bs else decide (a < b)

def insertSorted (x : String) : List String → List String
  | [] => [x]
  | y :: ys =>
    if charListLe x.data y.data then x :: y :: ys else y :: insertSorted x ys

def sortStrings (l : List String) : List String := l.foldr insertSorted []

def joinLines : List String → String
  | [] => ""
  | [x] => x
  | x :: rest => x ++ "\n" ++ joinLines rest

/-- `MCPService._handle_filesystem_tool` (mcp.py 242-271) for the two
pseudo-tools, with the filesystem as an oracle `fs` over resolved paths.
`Except.error` models a raised `ValueError`; note that the path validation
runs BEFORE the existence check and the listing/read. -/
def handleFilesystemTool (fs : String → Option FsNode) (workspaceRoot : String)
    (toolName : String) (pathArg : Option String) : Except String ToolOutput :=
  if toolName = "list_directory" then
    let relPath := pathArg.getD "."
    let target := resolvePath workspaceRoot relPath
    if !(validateWorkspacePath workspaceRoot target) then
      Except.error "Path escapes workspace root"
    else
      match fs target with
      | some (FsNode.dir entries) =>
        let listed := (sortStrings entries).take 50
        let body := joinLines listed
        let text := if body == "" then "<empty directory>" else body
        Except.ok (wrapTextResult ("Directory listing for " ++ relPath ++ ":\n" ++ text))
      | _ => Except.error ("Directory not found: " ++ relPath)
  else if toolName = "read_file" then
    match pathArg with
    | none => Except.error "'path' is required"
    | some relPath =>
      if relPath == "" then Except.error "'path' is required"
      else
        let target := resolvePath workspaceRoot relPath
        if !(validateWorkspacePath workspaceRoot target) then
          Except.error "Path escapes workspace root"
        else
          match fs target with
          | some (FsNode.file content) =>
            let preview : String := String.mk (content.data.take 5000)
            Except.ok (wrapTextResult ("File preview for " ++ relPath ++ ":\n" ++ preview))
          | _ => Except.error ("File not found: " ++ relPath)
  else Except.error ("Unsupported tool '" ++ toolName ++ "' for filesystem-tools")

/-- Filesystem oracle used in the C3 evaluation: a sibling of the workspace
root whose name shares the root as a string prefix, plus `/etc`. -/
def c3Fs : String → Option FsNode := fun p =>
  if p = "/workspace_evil" then some (FsNode.dir ["secrets.txt"])
  else if p = "/etc" then some (FsNode.dir ["passwd"])
  else none

/-- **C3 (code bug).**  The claim says every `path` argument whose resolved
target lies outside the workspace root is rejected with a path-escape error
before any listing or read.  `_validate_workspace_path` only checks a string
PREFIX (`str(target).startswith(str(root))`), so with workspace root
`"/workspace"` the argument `"../workspace_evil"` resolves to
`"/workspace_evil"` — outside the root — yet passes validation, and
`list_directory` goes on to list that escaped directory.  (The spec's own
example `"../../etc"` resolves to `"/etc"` and is indeed rejected, so the
guard only fails on escaped paths sharing the root as a string prefix.) -/
theorem c3_path_escape_bypass :
    resolvePath "/workspace" "../workspace_evil" = "/workspace_evil" ∧
    insideWorkspaceRoot "/workspace" "/workspace_evil" = false ∧
    validateWorkspacePath "/workspace" "/workspace_evil" = true ∧
    handleFilesystemTool c3Fs "/workspace" "list_directory" (some "../workspace_evil")
      = Except.ok (wrapTextResult "Directory listing for ../workspace_evil:\nsecrets.txt") ∧
    handleFilesystemTool c3Fs "/workspace" "list_directory" (some "../../etc")
      = Except.error "Path escapes workspace root" := by
  refine ⟨rfl, ?_, rfl, rfl, rfl⟩
  decide

/-! ## Retrieved-context shaping (sessions.py 257-267 `_shape_context_message`)

`RetrievedChunk` (rag.py 21-26) carries `chunk_id`, `document_id`, `text`,
`score`, `upload_filename`; the shaping function reads only `text`,
`upload_filename` and `chunk_id`, so the floating-point `score` (never read
here) is omitted from the embedding. -/

structure RetrievedChunk where
  chunkId : String
  documentId : String
  text : String
  uploadFilename : Option String
deriving DecidableEq

def isWhitespaceChar (c : Char) : Bool :=
  c = ' ' || c = '\t' || c = '\n' || c = '\r' || c = '\x0b' || c = '\x0c'

/-- Python `str.strip()`. -/
def pyStrip (s : String) : String :=
  String.mk (((s.data.dropWhile isWhitespaceChar).reverse.dropWhile isWhitespaceChar).reverse)

/-- Python `x or y` for strings: `y` when `x` is `None` or empty. -/
def orElseStr (x : Option String) (y : String) : String :=
  match x with
  | some s => if s = "" then y else s
  | none => y

/-- The per-chunk truncation (sessions.py 262-264): strip, then keep the first
1000 characters and append `"..."` when longer. -/
def truncateSnippet (s : String) : String :=
  if s.length > 1000 then String.mk (s.data.take 1000) ++ "..." else s

/-- Body of the loop at sessions.py 261-266 for one chunk. -/
def snippetFor (c : RetrievedChunk) : String :=
  let snippet := truncateSnippet (pyStrip c.text)
  let label := orElseStr c.uploadFilename ("Chunk " ++ c.chunkId)
  label ++ ":\n" ++ snippet

def contextHeader : String := "Use the following retrieved context when it is relevant:\n\n"

theorem string_length_append (a b : String) : (a ++ b).length = a.length + b.length := by
  cases a with
  | mk la =>
    cases b with
    | mk lb =>
      show (String.mk (la ++ lb)).length = _
      simp [String.length_mk, List.length_append]

/-- `_shape_context_message` (sessions.py 257-267). -/
def shapeContextMessage : List RetrievedChunk → Option String
  | [] => none
  | c :: cs =>
    some (contextHeader ++
      String.intercalate "\n\n" (((c :: cs).take 3).map snippetFor))

/-- **C9.**  The injected context message: `none` for an empty retrieval
list; only the top 3 chunks (in the given order) contribute, each contributing
one labelled snippet; and the snippet keeps at most the first 1000 characters
of the stripped passage text (a 3-character ellipsis marker is appended when
the passage was cut, so the snippet never exceeds 1003 characters and its
first 1000 characters always agree with the passage's). -/
theorem c9_context_message_shape :
    shapeContextMessage [] = none ∧
    (∀ chunks : List RetrievedChunk,
      shapeContextMessage chunks = shapeContextMessage (chunks.take 3)) ∧
    (∀ (c : RetrievedChunk) (cs : List RetrievedChunk),
      shapeContextMessage (c :: cs) =
        some (contextHeader ++
          String.intercalate "\n\n" (snippetFor c :: (cs.take 2).map snippetFor))) ∧
    (∀ s : String,
      (truncateSnippet s).data.take 1000 = s.data.take 1000 ∧
      (truncateSnippet s).length ≤ 1003) := by
  refine ⟨rfl, ?_, ?_, ?_⟩
  · intro chunks
    cases chunks with
    | nil => rfl
    | cons c cs => simp [shapeContextMessage, List.take_take]
  · intro c cs
    simp [shapeContextMessage]
  · intro s
    have hsdata : s.length = s.data.length := by cases s; rfl
    by_cases h : s.length > 1000
    · have hdata : 1000 ≤ s.data.length := by omega
      have htake : (s.data.take 1000).length = 1000 := by
        rw [List.length_take]
        omega
      constructor
      · rw [truncateSnippet, if_pos h, String.data_append,
          show (String.mk (s.data.take 1000)).data = s.data.take 1000 from rfl]
        exact List.take_left' htake
      · rw [truncateSnippet, if_pos h, string_length_append, String.length_mk, htake]
        decide
    · rw [truncateSnippet, if_neg h]
      exact ⟨rfl, by omega⟩

/-! ## Request-id counters
(`_StdioSession._next_request_id`, mcp.py 468-470 and
`_StreamtableHTTPSession._next_request_id`, mcp.py 734-736)

Both sessions initialise `self._next_id = 0` in `__post_init__` and implement
`_next_request_id` identically: `self._next_id += 1; return self._next_id`.
In both transports the first request issued is the `initialize` handshake
(`_StdioSession._initialize` goes through `request`; the HTTP session calls
`_next_request_id` directly for its handshake payload), so the handshake
consumes the first id.  Notifications carry no id and do not touch the
counter. -/

/-- `_next_request_id`: the counter state is `_next_id`; returns the new state
and the id handed to the request. -/
def nextRequestId (nextId : Nat) : Nat × Nat := (nextId + 1, nextId + 1)

/-- Ids produced by `k` successive requests starting from counter state
`st`. -/
def requestIdsFrom : Nat → Nat → List Nat
  | _, 0 => []
  | st, k + 1 =>
    let r := nextRequestId st
    r.2 :: requestIdsFrom r.1 k

/-- Ids of the first `k` requests of one transport session (counter starts at
0). -/
def sessionRequestIds (k : Nat) : List Nat := requestIdsFrom 0 k

theorem requestIdsFrom_eq_range' (st k : Nat) :
    requestIdsFrom st k = List.range' (st + 1) k := by
  induction k generalizing st with
  | zero => rfl
  | succ k ih => simp [requestIdsFrom, nextRequestId, List.range', ih]

theorem requestIdsFrom_getD (st k i : Nat) :
    (requestIdsFrom st k).getD i 0 = if i < k then st + i + 1 else 0 := by
  induction k generalizing st i with
  | zero => simp [requestIdsFrom]
  | succ k ih =>
    cases i with
    | zero => simp [requestIdsFrom, nextRequestId]
    | succ i =>
      have := ih (st + 1) i
      simp only [requestIdsFrom, nextRequestId, List.getD_cons_succ, this]
      by_cases h : i < k
      · rw [if_pos h, if_pos (by omega)]
        omega
      · rw [if_neg h, if_neg (by omega)]

/-- **C8.**  Within one transport session (stdio or streaming-HTTP) the ids of
successive requests are `1, 2, 3, ...`: the `i`-th request carries id `i + 1`
(so the initialize handshake, the first request, carries id 1), and the id
sequence is strictly increasing, hence free of duplicates. -/
theorem c8_request_ids_sequential (k : Nat) :
    sessionRequestIds k = List.range' 1 k ∧
    (∀ i : Nat, (sessionRequestIds k).getD i 0 = if i < k then i + 1 else 0) ∧
    (sessionRequestIds k).head? = (if 0 < k then some 1 else none) ∧
    List.Pairwise (fun a b => a < b) (sessionRequestIds k) ∧
    (sessionRequestIds k).Nodup := by
  have hrange : sessionRequestIds k = List.range' 1 k :=
    requestIdsFrom_eq_range' 0 k
  have hpair : List.Pairwise (fun a b : Nat => a < b) (sessionRequestIds k) := by
    rw [hrange]
    exact List.pairwise_lt_range' 1 k
  refine ⟨hrange, ?_, ?_, hpair, ?_⟩
  · intro i
    simpa using requestIdsFrom_getD 0 k i
  · cases k with
    | zero => rfl
    | succ k => simp [sessionRequestIds, requestIdsFrom, nextRequestId]
  · exact hpair.imp (fun h => Nat.ne_of_lt h)

/-! ## Tool catalog building (mcp.py 53-99 `build_tool_definitions`)

`list_tools` performs transport I/O, so it is an oracle
`listTools : String → Except String (List ToolSpec)`; `Except.error` models a
raised exception (which the source catches, logs and skips). -/

/-- A raw tool dict from a `tools/list` response; `.get` misses are `none`. -/
structure ToolSpec where
  name : Option String
  description : Option String
  title : Option String
  inputSchema : Option Json

/-- An entry of the returned `definitions` list (the nested
`{"type": "function", "function": {...}}` wrapper collapsed to its payload). -/
structure ToolDefinition where
  name : String
  description : String
  parameters : Json

/-- Python truthiness of a JSON value (`or` fallback semantics). -/
def jsonTruthy : Json → Bool
  | .null => false
  | .bool b => b
  | .num n => n != 0
  | .str s => s != ""
  | .arr items => !items.isEmpty
  | .obj fields => !fields.isEmpty

def defaultParamsSchema : Json :=
  Json.obj [("type", Json.str "object"), ("properties", Json.obj [])]

/-- `tool.get("inputSchema") or default` then the `isinstance(dict)` check
(mcp.py 80-82). -/
def normalizeSchema (schema : Option Json) : Json :=
  let p := match schema with
    | some j => if jsonTruthy j then j else defaultParamsSchema
    | none => defaultParamsSchema
  if p.isObj then p else defaultParamsSchema

/-- `tool.get("name")` with the `if not tool_name: continue` filter. -/
def toolNameTruthy (t : ToolSpec) : Bool :=
  match t.name with
  | some s => s != ""
  | none => false

/-- One definition plus one lookup entry for a (kept) tool (mcp.py 74-97). -/
def toolEntry (serverName : String) (t : ToolSpec) :
    ToolDefinition × (String × String × String) :=
  let toolName := t.name.getD ""
  let functionName := encodeToolName serverName toolName
  let description :=
    orElseStr t.description
      (orElseStr t.title ("Tool '" ++ toolName ++ "' exposed by " ++ serverName))
  ( { name := functionName
      description := description ++ " (via " ++ serverName ++ ")"
      parameters := normalizeSchema t.inputSchema },
    (functionName, serverName, toolName) )

/-- `MCPService.build_tool_definitions` (mcp.py 53-99).  Servers are processed
in order; a server whose listing raises is skipped (`except Exception:
continue`); the lookup dict is modelled as the association list of insertions
(later entries shadow earlier ones on lookup, as in a Python dict). -/
def buildToolDefinitions (listTools : String → Except String (List ToolSpec)) :
    List String → List ToolDefinition × List (String × String × String)
  | [] => ([], [])
  | serverName :: rest =>
    let tail := buildToolDefinitions listTools rest
    match listTools serverName with
    | Except.error _ => tail
    | Except.ok tools =>
      let entries := (tools.filter toolNameTruthy).map (toolEntry serverName)
      (entries.map (fun e => e.1) ++ tail.1, entries.map (fun e => e.2) ++ tail.2)

theorem buildToolDefinitions_cons
    (listTools : String → Except String (List ToolSpec))
    (serverName : String) (rest : List String) :
    buildToolDefinitions listTools (serverName :: rest) =
      match listTools serverName with
      | Except.error _ => buildToolDefinitions listTools rest
      | Except.ok tools =>
        let entries := (tools.filter toolNameTruthy).map (toolEntry serverName)
        (entries.map (fun e => e.1) ++ (buildToolDefinitions listTools rest).1,
         entries.map (fun e => e.2) ++ (buildToolDefinitions listTools rest).2) := rfl

/-- **C6.**  A server whose tool listing raises contributes zero definitions
and zero lookup entries and the exception does not propagate (the builder is a
total function): the build over `pre ++ [failing] ++ post` equals the build
over `pre ++ post`, so every other server's definitions are still produced. -/
theorem c6_failing_server_skipped
    (listTools : String → Except String (List ToolSpec))
    (pre post : List String) (failing : String) (e : String)
    (hfail : listTools failing = Except.error e) :
    buildToolDefinitions listTools (pre ++ failing :: post)
      = buildToolDefinitions listTools (pre ++ post) := by
  induction pre with
  | nil =>
    show buildToolDefinitions listTools (failing :: post) = _
    rw [buildToolDefinitions_cons, hfail]
    rfl
  | cons serverName pre ih =>
    show buildToolDefinitions listTools (serverName :: (pre ++ failing :: post))
        = buildToolDefinitions listTools (serverName :: (pre ++ post))
    rw [buildToolDefinitions_cons listTools serverName (pre ++ failing :: post),
      buildToolDefinitions_cons listTools serverName (pre ++ post), ih]

/-- Witness for `c6_failing_server_skipped`: with a listing oracle that fails
for `"bad"` and returns one tool for every other server, building over
`["fs", "bad", "web"]` equals building over `["fs", "web"]`. -/
theorem c6_failing_server_skipped_witness :
    buildToolDefinitions
      (fun s => if s = "bad" then Except.error "boom"
                else Except.ok [⟨some "ping", none, none, none⟩])
      ["fs", "bad", "web"]
    = buildToolDefinitions
      (fun s => if s = "bad" then Except.error "boom"
                else Except.ok [⟨some "ping", none, none, none⟩])
      ["fs", "web"] :=
  c6_failing_server_skipped _ ["fs"] ["web"] "bad" "boom" (by simp)

/-! ## The conversation-orchestrator turn loop
(sessions.py 391-567, the `while True` loop of `_process_user_turn` plus the
empty-reply fallback)

External effects are oracles bundled in `TurnEnv`:
  * `ollama_service.chat` is a scripted list of `ModelResponse`s consumed one
    per loop iteration (`ModelResponse.failure` models the `RuntimeError` the
    service raises on a transport failure, which is the only exception class
    the loop catches there);
  * `mcp_service.execute` is `execTool` into `Except` (`error` models any
    raised exception, caught at sessions.py 506);
  * the standard-library `json.loads` / `json.dumps` are `jsonParse` /
    `dumpOutput`.
Trace steps record the step type, label and output payload on which the
claims quantify; the `input_payload` snapshots (and the trace-service I/O
itself) carry no control flow and are not modelled.  The model-response
`raw` field is likewise omitted. -/

/-- `function_payload = call.get("function") or {}` — the inner dict of one
requested tool call, with `.get` misses as `none`. -/
structure ToolCallFunction where
  name : Option String
  arguments : Option Json

structure ToolCall where
  function : Option ToolCallFunction

/-- `message_payload = response.get("message") or {}` with `.get` misses as
`none` (`tool_calls`/`content`/`role` defaults are applied by the loop, as in
the source). -/
structure ModelMessage where
  role : Option String
  content : Option String
  toolCalls : Option (List ToolCall)

/-- One scripted outcome of `await ollama_service.chat(...)`. -/
inductive ModelResponse where
  | failure (err : String)
  | success (message : ModelMessage)

/-- Output payload recorded with a trace step. -/
inductive TracePayload where
  | modelOutput (message : ModelMessage)
  | modelError (err : String)
  | toolOutput (out : ToolOutput)

structure TraceStepRec where
  stepType : String
  label : String
  output : TracePayload

/-- An entry of `llm_messages`.  The source appends plain dicts; keys that a
given role never sets (`tool_calls`, `tool_name`) default to empty here. -/
structure ChatMsg where
  role : String
  content : String
  toolCalls : List ToolCall := []
  toolName : Option String := none

/-- Oracles and per-turn constants of the loop. -/
structure TurnEnv where
  jsonParse : String → Option Json
  dumpOutput : ToolOutput → String
  execTool : String → String → Json → Except String ToolOutput
  toolLookup : List (String × String × String)
  toolsPayload : List Json

/-- Python-dict lookup over the built association list (later insertions for
the same key shadow earlier ones). -/
def dictGet (l : List (String × String × String)) (k : String) :
    Option (String × String) :=
  (l.reverse.find? (fun p => p.1 == k)).map (fun p => p.2)

/-- sessions.py 474-482: normalize `function_payload.get("arguments", {})`. -/
def normalizeArguments (env : TurnEnv) : Option Json → Json
  | none => Json.obj []
  | some (Json.str s) =>
    match env.jsonParse s with
    | some v => v
    | none => Json.obj [("raw", Json.str s)]
  | some (Json.obj fields) => Json.obj fields
  | some other => Json.obj [("value", other)]

/-- sessions.py 484-490: resolve `tool_lookup.get(function_name)` with the
`decode_tool_name` fallback for unknown, non-empty names. -/
def resolveToolInfo (env : TurnEnv) (functionName : String) :
    Option (String × String) :=
  match dictGet env.toolLookup functionName with
  | some info => some info
  | none =>
    if functionName ≠ "" then
      match decodeToolName functionName with
      | Except.ok p => some p
      | Except.error _ => none
    else none

/-- The error envelope built at sessions.py 506-512 when a tool call raises
(including the `Unknown tool` `ValueError` raised at 493-494). -/
def toolFailureOutput (excText : String) : ToolOutput :=
  let errorText := "Tool invocation failed: " ++ excText
  { content := [Json.obj [("type", Json.str "text"), ("text", Json.str errorText)]]
    isError := true
    text := errorText }

def toolCallFunctionName (call : ToolCall) : String :=
  ((call.function.getD ⟨none, none⟩).name).getD ""

def toolCallArguments (env : TurnEnv) (call : ToolCall) : Json :=
  normalizeArguments env (call.function.getD ⟨none, none⟩).arguments

/-- `arguments if isinstance(arguments, dict) else {"value": arguments}`
(sessions.py 504). -/
def toolCallFinalArgs (env : TurnEnv) (call : ToolCall) : Json :=
  let a := toolCallArguments env call
  if a.isObj then a else Json.obj [("value", a)]

/-- sessions.py 469-552, the body of `for call in tool_calls`: produces the
`mcp` trace step and the appended `tool` message for one call. -/
def execOneCall (env : TurnEnv) (call : ToolCall) : TraceStepRec × ChatMsg :=
  let functionName := toolCallFunctionName call
  let info := resolveToolInfo env functionName
  let toolOutput :=
    match info with
    | none => toolFailureOutput ("Unknown tool '" ++ functionName ++ "'")
    | some (serverName, toolName) =>
      match env.execTool serverName toolName (toolCallFinalArgs env call) with
      | Except.ok out => out
      | Except.error exc => toolFailureOutput exc
  let label :=
    if functionName ≠ "" then functionName
    else match info with
      | some (s, t) => s ++ ":" ++ t
      | none => "mcp"
  let toolText := if toolOutput.text ≠ "" then toolOutput.text else env.dumpOutput toolOutput
  let toolNameValue :=
    if functionName ≠ "" then functionName
    else match info with
      | some (s, t) => s ++ ":" ++ t
      | none => ""
  ( { stepType := "mcp", label := label, output := TracePayload.toolOutput toolOutput },
    { role := "tool", content := toolText, toolName := some toolNameValue } )

/-- All calls of one round, executed sequentially in the requested order. -/
def roundSteps (env : TurnEnv) (calls : List ToolCall) : List TraceStepRec :=
  calls.map (fun c => (execOneCall env c).1)

def roundMsgs (env : TurnEnv) (calls : List ToolCall) : List ChatMsg :=
  calls.map (fun c => (execOneCall env c).2)

/-- The assistant entry appended at sessions.py 447-453
(`message_payload.get("role") or "assistant"` falls back on an empty or
missing role; `tool_calls` is only set when non-empty, which coincides with
the empty-list default here). -/
def assistantEntryOf (m : ModelMessage) : ChatMsg :=
  { role := orElseStr m.role "assistant"
    content := m.content.getD ""
    toolCalls := m.toolCalls.getD [] }

def fallbackUnreachable : String :=
  "I couldn't reach the model to craft a response right now. Please try again in a moment."

def loopGuardMessage : String :=
  "I ran into a tool loop and had to stop. Please refine your request."

def emptyReplyFallback : String :=
  "I could not produce a response right now. Please try again or adjust your request."

def maxToolIterations : Nat := 4

/-- Result of the loop: the trace steps emitted from this point on, the final
`llm_messages`, the final `assistant_text`, and the unconsumed tail of the
model script (non-empty exactly when the loop terminated before invoking the
model again).  `scriptExhausted` marks the modelling artefact of running out
of scripted responses where the source would call the model. -/
structure TurnResult where
  steps : List TraceStepRec
  messages : List ChatMsg
  assistantText : String
  remaining : List ModelResponse
  scriptExhausted : Bool := false

/-- The `while True` loop (sessions.py 395-557), by recursion on the scripted
model responses.  State arguments mirror the mutated locals: `llm_messages`,
`tool_iterations`, `assistant_text`. -/
def runTurnLoop (env : TurnEnv) :
    List ModelResponse → List ChatMsg → Nat → String → TurnResult
  | [], msgs, _, text =>
    { steps := [], messages := msgs, assistantText := text,
      remaining := [], scriptExhausted := true }
  | resp :: rest, msgs, iterations, text =>
    match resp with
    | ModelResponse.failure err =>
      { steps := [⟨"model", "Model call failed", TracePayload.modelError err⟩],
        messages := msgs, assistantText := fallbackUnreachable, remaining := rest }
    | ModelResponse.success m =>
      let toolCalls := m.toolCalls.getD []
      let assistantContent := pyStrip (m.content.getD "")
      let modelStep : TraceStepRec :=
        ⟨"model",
          if !toolCalls.isEmpty then "Assistant tool request" else "Assistant response",
          TracePayload.modelOutput m⟩
      let msgsWithAssistant := msgs ++ [assistantEntryOf m]
      if !toolCalls.isEmpty && !env.toolsPayload.isEmpty then
        if iterations + 1 > maxToolIterations then
          { steps := [modelStep], messages := msgsWithAssistant,
            assistantText := loopGuardMessage, remaining := rest }
        else
          let result := runTurnLoop env rest
            (msgsWithAssistant ++ roundMsgs env toolCalls) (iterations + 1) text
          { result with steps := modelStep :: roundSteps env toolCalls ++ result.steps }
      else
        { steps := [modelStep], messages := msgsWithAssistant,
          assistantText := if assistantContent ≠ "" then assistantContent else text,
          remaining := rest }

/-- The whole turn tail (loop from `assistant_text = ""`, `tool_iterations =
0`, then the empty-reply fallback of sessions.py 559-567). -/
def processTurn (env : TurnEnv) (responses : List ModelResponse)
    (initialMessages : List ChatMsg) : TurnResult :=
  let r := runTurnLoop env responses initialMessages 0 ""
  if r.assistantText = "" then { r with assistantText := emptyReplyFallback } else r

theorem runTurnLoop_failure (env : TurnEnv) (err : String)
    (rest : List ModelResponse) (msgs : List ChatMsg) (iterations : Nat) (text : String) :
    runTurnLoop env (ModelResponse.failure err :: rest) msgs iterations text =
      { steps := [⟨"model", "Model call failed", TracePayload.modelError err⟩],
        messages := msgs, assistantText := fallbackUnreachable,
        remaining := rest, scriptExhausted := false } := rfl

theorem runTurnLoop_success (env : TurnEnv) (m : ModelMessage)
    (rest : List ModelResponse) (msgs : List ChatMsg) (iterations : Nat) (text : String) :
    runTurnLoop env (ModelResponse.success m :: rest) msgs iterations text =
      (let toolCalls := m.toolCalls.getD []
       let assistantContent := pyStrip (m.content.getD "")
       let modelStep : TraceStepRec :=
         ⟨"model",
           if !toolCalls.isEmpty then "Assistant tool request" else "Assistant response",
           TracePayload.modelOutput m⟩
       let msgsWithAssistant := msgs ++ [assistantEntryOf m]
       if !toolCalls.isEmpty && !env.toolsPayload.isEmpty then
         if iterations + 1 > maxToolIterations then
           { steps := [modelStep], messages := msgsWithAssistant,
             assistantText := loopGuardMessage, remaining := rest }
         else
           let result := runTurnLoop env rest
             (msgsWithAssistant ++ roundMsgs env toolCalls) (iterations + 1) text
           { result with steps := modelStep :: roundSteps env toolCalls ++ result.steps }
       else
         { steps := [modelStep], messages := msgsWithAssistant,
           assistantText := if assistantContent ≠ "" then assistantContent else text,
           remaining := rest }) := rfl

theorem fallbackUnreachable_ne_empty : fallbackUnreachable ≠ "" := by decide

theorem loopGuardMessage_ne_empty : loopGuardMessage ≠ "" := by decide

/-- **C7.**  A transport failure of the model call (the `RuntimeError` raised
by `ollama_service.chat`) ends the turn at once: no retry and no further
model or tool invocation (the script tail `rest` is left unconsumed), exactly
one trace step is recorded for the failed call and it carries the error
payload, the stored assistant reply is the fixed fallback text, and the loop
is a total function — no exception propagates.  This holds at any loop state
(first conjunct) and hence for the whole turn (second conjunct). -/
theorem c7_transport_failure_ends_turn (env : TurnEnv) (err : String)
    (rest : List ModelResponse) (msgs : List ChatMsg) :
    (∀ (iterations : Nat) (text : String),
      runTurnLoop env (ModelResponse.failure err :: rest) msgs iterations text =
        { steps := [⟨"model", "Model call failed", TracePayload.modelError err⟩],
          messages := msgs, assistantText := fallbackUnreachable,
          remaining := rest, scriptExhausted := false }) ∧
    processTurn env (ModelResponse.failure err :: rest) msgs =
      { steps := [⟨"model", "Model call failed", TracePayload.modelError err⟩],
        messages := msgs, assistantText := fallbackUnreachable,
        remaining := rest, scriptExhausted := false } := by
  constructor
  · intro iterations text
    rfl
  · show (let r := runTurnLoop env (ModelResponse.failure err :: rest) msgs 0 ""
          if r.assistantText = "" then { r with assistantText := emptyReplyFallback } else r) = _
    rw [runTurnLoop_failure]
    exact if_neg fallbackUnreachable_ne_empty

/-- **C10.**  When a model response carries tool calls but the turn's built
tool-definitions list is empty, the requested calls are not executed: no
`mcp` trace step is emitted (the only step is the model step, still labelled
as a tool request), the loop ends immediately (so the round can never trip
the loop guard), and the response's stripped content — or the empty-content
fallback — becomes the final assistant reply. -/
theorem c10_tool_calls_without_tools (env : TurnEnv) (m : ModelMessage)
    (rest : List ModelResponse) (msgs : List ChatMsg)
    (hcalls : (m.toolCalls.getD []).isEmpty = false)
    (htools : env.toolsPayload = []) :
    processTurn env (ModelResponse.success m :: rest) msgs =
      { steps := [⟨"model", "Assistant tool request", TracePayload.modelOutput m⟩],
        messages := msgs ++ [assistantEntryOf m],
        assistantText :=
          if pyStrip (m.content.getD "") = "" then emptyReplyFallback
          else pyStrip (m.content.getD ""),
        remaining := rest, scriptExhausted := false } := by
  show (let r := runTurnLoop env (ModelResponse.success m :: rest) msgs 0 ""
        if r.assistantText = "" then { r with assistantText := emptyReplyFallback } else r) = _
  rw [runTurnLoop_success]
  simp only [hcalls, htools, List.isEmpty_nil, Bool.not_false, Bool.not_true,
    Bool.and_false, Bool.false_and, if_false, Bool.false_eq_true]
  by_cases hc : pyStrip (m.content.getD "") = ""
  · simp [hc]
  · simp [hc]

/-- Concrete environment for the C10 witness: no server contributed tools. -/
def c10Env : TurnEnv :=
  { jsonParse := fun _ => none
    dumpOutput := fun _ => ""
    execTool := fun _ _ _ => Except.error "unavailable"
    toolLookup := []
    toolsPayload := [] }

def c10Msg : ModelMessage :=
  { role := some "assistant"
    content := some "Done."
    toolCalls := some [⟨some ⟨some "fs__read_file", none⟩⟩] }

/-- Witness for `c10_tool_calls_without_tools` at a concrete response that
requests one tool call while no tool definitions were built. -/
theorem c10_tool_calls_without_tools_witness :
    processTurn c10Env [ModelResponse.success c10Msg] [] =
      { steps := [⟨"model", "Assistant tool request", TracePayload.modelOutput c10Msg⟩],
        messages := [assistantEntryOf c10Msg],
        assistantText := "Done.",
        remaining := [], scriptExhausted := false } :=
  c10_tool_calls_without_tools c10Env c10Msg [] [] (by decide) rfl

theorem runTurnLoop_tool_round (env : TurnEnv) (m : ModelMessage)
    (rest : List ModelResponse) (msgs : List ChatMsg) (iterations : Nat) (text : String)
    (hcalls : (m.toolCalls.getD []).isEmpty = false)
    (htools : env.toolsPayload.isEmpty = false)
    (hiter : ¬ iterations + 1 > maxToolIterations) :
    runTurnLoop env (ModelResponse.success m :: rest) msgs iterations text =
      (let result := runTurnLoop env rest
         (msgs ++ [assistantEntryOf m] ++ roundMsgs env (m.toolCalls.getD []))
         (iterations + 1) text
       { result with
          steps := ⟨"model", "Assistant tool request", TracePayload.modelOutput m⟩ ::
            roundSteps env (m.toolCalls.getD []) ++ result.steps }) := by
  rw [runTurnLoop_success]
  simp only [hcalls, htools, Bool.not_false, Bool.and_self, if_true, if_neg hiter]

theorem runTurnLoop_tool_abort (env : TurnEnv) (m : ModelMessage)
    (rest : List ModelResponse) (msgs : List ChatMsg) (iterations : Nat) (text : String)
    (hcalls : (m.toolCalls.getD []).isEmpty = false)
    (htools : env.toolsPayload.isEmpty = false)
    (hiter : iterations + 1 > maxToolIterations) :
    runTurnLoop env (ModelResponse.success m :: rest) msgs iterations text =
      { steps := [⟨"model", "Assistant tool request", TracePayload.modelOutput m⟩],
        messages := msgs ++ [assistantEntryOf m],
        assistantText := loopGuardMessage, remaining := rest,
        scriptExhausted := false } := by
  rw [runTurnLoop_success]
  simp only [hcalls, htools, Bool.not_false, Bool.and_self, if_true, if_pos hiter]

/-- **C2.**  If the model requests tool calls on 5 consecutive invocations
(with a non-empty tool-definitions list), the turn aborts after the 5th model
response with the fixed tool-loop fallback message: the trace contains the 4
executed rounds (model step plus that round's `mcp` steps, in order) followed
by the 5th model step only — the 5th round's calls are not executed and the
script tail `rest` is left unconsumed. -/
theorem c2_tool_loop_guard (env : TurnEnv) (m1 m2 m3 m4 m5 : ModelMessage)
    (rest : List ModelResponse) (msgs : List ChatMsg)
    (h1 : (m1.toolCalls.getD []).isEmpty = false)
    (h2 : (m2.toolCalls.getD []).isEmpty = false)
    (h3 : (m3.toolCalls.getD []).isEmpty = false)
    (h4 : (m4.toolCalls.getD []).isEmpty = false)
    (h5 : (m5.toolCalls.getD []).isEmpty = false)
    (htools : env.toolsPayload.isEmpty = false) :
    processTurn env
      (ModelResponse.success m1 :: ModelResponse.success m2 :: ModelResponse.success m3 ::
        ModelResponse.success m4 :: ModelResponse.success m5 :: rest) msgs =
      { steps :=
          (⟨"model", "Assistant tool request", TracePayload.modelOutput m1⟩ ::
            roundSteps env (m1.toolCalls.getD [])) ++
          (⟨"model", "Assistant tool request", TracePayload.modelOutput m2⟩ ::
            roundSteps env (m2.toolCalls.getD [])) ++
          (⟨"model", "Assistant tool request", TracePayload.modelOutput m3⟩ ::
            roundSteps env (m3.toolCalls.getD [])) ++
          (⟨"model", "Assistant tool request", TracePayload.modelOutput m4⟩ ::
            roundSteps env (m4.toolCalls.getD [])) ++
          [⟨"model", "Assistant tool request", TracePayload.modelOutput m5⟩],
        messages :=
          msgs ++ [assistantEntryOf m1] ++ roundMsgs env (m1.toolCalls.getD []) ++
          [assistantEntryOf m2] ++ roundMsgs env (m2.toolCalls.getD []) ++
          [assistantEntryOf m3] ++ roundMsgs env (m3.toolCalls.getD []) ++
          [assistantEntryOf m4] ++ roundMsgs env (m4.toolCalls.getD []) ++
          [assistantEntryOf m5],
        assistantText := loopGuardMessage,
        remaining := rest, scriptExhausted := false } := by
  show (let r := runTurnLoop env
          (ModelResponse.success m1 :: ModelResponse.success m2 :: ModelResponse.success m3 ::
            ModelResponse.success m4 :: ModelResponse.success m5 :: rest) msgs 0 ""
        if r.assistantText = "" then { r with assistantText := emptyReplyFallback } else r) = _
  rw [runTurnLoop_tool_round env m1 _ _ 0 "" h1 htools (by decide),
    runTurnLoop_tool_round env m2 _ _ 1 "" h2 htools (by decide),
    runTurnLoop_tool_round env m3 _ _ 2 "" h3 htools (by decide),
    runTurnLoop_tool_round env m4 _ _ 3 "" h4 htools (by decide),
    runTurnLoop_tool_abort env m5 _ _ 4 "" h5 htools (by decide)]
  rw [if_neg (by exact loopGuardMessage_ne_empty)]
  simp [List.append_assoc]

/-- Concrete environment for the C2 witness: one known tool that always
succeeds. -/
def c2Env : TurnEnv :=
  { jsonParse := fun _ => none
    dumpOutput := fun _ => ""
    execTool := fun _ _ _ => Except.ok { content := [], isError := false, text := "ok" }
    toolLookup := [("fs__read_file", ("fs", "read_file"))]
    toolsPayload := [Json.obj []] }

def c2Msg : ModelMessage :=
  { role := some "assistant"
    content := some ""
    toolCalls := some [⟨some ⟨some "fs__read_file", none⟩⟩] }

/-- Witness for `c2_tool_loop_guard`: the same tool-requesting response five
times in a row. -/
theorem c2_tool_loop_guard_witness :
    processTurn c2Env
      (ModelResponse.success c2Msg :: ModelResponse.success c2Msg ::
        ModelResponse.success c2Msg :: ModelResponse.success c2Msg ::
        ModelResponse.success c2Msg :: []) [] =
      { steps :=
          (⟨"model", "Assistant tool request", TracePayload.modelOutput c2Msg⟩ ::
            roundSteps c2Env (c2Msg.toolCalls.getD [])) ++
          (⟨"model", "Assistant tool request", TracePayload.modelOutput c2Msg⟩ ::
            roundSteps c2Env (c2Msg.toolCalls.getD [])) ++
          (⟨"model", "Assistant tool request", TracePayload.modelOutput c2Msg⟩ ::
            roundSteps c2Env (c2Msg.toolCalls.getD [])) ++
          (⟨"model", "Assistant tool request", TracePayload.modelOutput c2Msg⟩ ::
            roundSteps c2Env (c2Msg.toolCalls.getD [])) ++
          [⟨"model", "Assistant tool request", TracePayload.modelOutput c2Msg⟩],
        messages :=
          [] ++ [assistantEntryOf c2Msg] ++ roundMsgs c2Env (c2Msg.toolCalls.getD []) ++
          [assistantEntryOf c2Msg] ++ roundMsgs c2Env (c2Msg.toolCalls.getD []) ++
          [assistantEntryOf c2Msg] ++ roundMsgs c2Env (c2Msg.toolCalls.getD []) ++
          [assistantEntryOf c2Msg] ++ roundMsgs c2Env (c2Msg.toolCalls.getD []) ++
          [assistantEntryOf c2Msg],
        assistantText := loopGuardMessage,
        remaining := [], scriptExhausted := false } :=
  c2_tool_loop_guard c2Env c2Msg c2Msg c2Msg c2Msg c2Msg [] []
    (by decide) (by decide) (by decide) (by decide) (by decide) (by decide)

theorem toolFailureText_ne_empty (exc : String) :
    "Tool invocation failed: " ++ exc ≠ "" := by
  intro h
  have hlen := congrArg String.length h
  rw [string_length_append] at hlen
  rw [show ("Tool invocation failed: " : String).length = 24 from rfl,
    show ("" : String).length = 0 from rfl] at hlen
  omega

theorem toolFailureOutput_text (exc : String) :
    (toolFailureOutput exc).text = "Tool invocation failed: " ++ exc := rfl

theorem execOneCall_error (env : TurnEnv) (bad : ToolCall)
    (serverName toolName exc : String)
    (hinfo : resolveToolInfo env (toolCallFunctionName bad) = some (serverName, toolName))
    (hexec : env.execTool serverName toolName (toolCallFinalArgs env bad)
      = Except.error exc) :
    execOneCall env bad =
      ( { stepType := "mcp",
          label := if toolCallFunctionName bad ≠ "" then toolCallFunctionName bad
                   else serverName ++ ":" ++ toolName,
          output := TracePayload.toolOutput (toolFailureOutput exc) },
        { role := "tool",
          content := "Tool invocation failed: " ++ exc,
          toolName := some (if toolCallFunctionName bad ≠ "" then toolCallFunctionName bad
                            else serverName ++ ":" ++ toolName) } ) := by
  simp only [execOneCall, hinfo, hexec]
  simp only [toolFailureOutput_text]
  rw [if_pos (toolFailureText_ne_empty exc)]

/-- **C5.**  Within one round, a tool call whose execution raises is converted
into an error `ToolResult` (an `mcp` trace step whose output has
`isError = true` and a failure-description `text`, and a `tool` message
carrying that text), while every other call of the same model response is
still executed, in the requested order; the loop then proceeds to the next
model invocation instead of aborting the turn. -/
theorem c5_tool_failure_isolated (env : TurnEnv) (pre post : List ToolCall)
    (bad : ToolCall) (serverName toolName exc : String)
    (hinfo : resolveToolInfo env (toolCallFunctionName bad) = some (serverName, toolName))
    (hexec : env.execTool serverName toolName (toolCallFinalArgs env bad)
      = Except.error exc) :
    roundSteps env (pre ++ bad :: post) =
      roundSteps env pre ++ (execOneCall env bad).1 :: roundSteps env post ∧
    roundMsgs env (pre ++ bad :: post) =
      roundMsgs env pre ++ (execOneCall env bad).2 :: roundMsgs env post ∧
    ((execOneCall env bad).1.stepType = "mcp" ∧
     (execOneCall env bad).1.output = TracePayload.toolOutput (toolFailureOutput exc)) ∧
    ((toolFailureOutput exc).isError = true ∧
     (toolFailureOutput exc).text = "Tool invocation failed: " ++ exc ∧
     (execOneCall env bad).2.role = "tool" ∧
     (execOneCall env bad).2.content = "Tool invocation failed: " ++ exc) ∧
    (∀ (m : ModelMessage) (rest : List ModelResponse) (msgs : List ChatMsg)
        (iterations : Nat) (text : String),
      m.toolCalls = some (pre ++ bad :: post) →
      env.toolsPayload.isEmpty = false →
      iterations + 1 ≤ maxToolIterations →
      runTurnLoop env (ModelResponse.success m :: rest) msgs iterations text =
        (let result := runTurnLoop env rest
           (msgs ++ [assistantEntryOf m] ++ roundMsgs env (pre ++ bad :: post))
           (iterations + 1) text
         { result with
            steps := ⟨"model", "Assistant tool request", TracePayload.modelOutput m⟩ ::
              roundSteps env (pre ++ bad :: post) ++ result.steps })) := by
  have hcall := execOneCall_error env bad serverName toolName exc hinfo hexec
  refine ⟨?_, ?_, ?_, ?_, ?_⟩
  · simp [roundSteps]
  · simp [roundMsgs]
  · rw [hcall]
    exact ⟨rfl, rfl⟩
  · rw [hcall]
    exact ⟨rfl, rfl, rfl, rfl⟩
  · intro m rest msgs iterations text hm htools hiter
    have hcalls : (m.toolCalls.getD []).isEmpty = false := by
      rw [hm]
      cases pre <;> rfl
    have hstep := runTurnLoop_tool_round env m rest msgs iterations text hcalls htools
      (by omega)
    simpa only [hm, Option.getD_some] using hstep

/-- Concrete environment for the C5 witness: the known tool exists but its
execution raises. -/
def c5Env : TurnEnv :=
  { jsonParse := fun _ => none
    dumpOutput := fun _ => ""
    execTool := fun _ _ _ => Except.error "connection reset"
    toolLookup := [("fs__read_file", ("fs", "read_file"))]
    toolsPayload := [Json.obj []] }

def c5Call : ToolCall := ⟨some ⟨some "fs__read_file", none⟩⟩

/-- Witness for `c5_tool_failure_isolated`: a round of three calls whose
middle call fails; the failure is recorded as an error result and the other
calls' steps are still present around it. -/
theorem c5_tool_failure_isolated_witness :
    roundSteps c5Env ([c5Call] ++ c5Call :: [c5Call]) =
      roundSteps c5Env [c5Call] ++ (execOneCall c5Env c5Call).1 ::
        roundSteps c5Env [c5Call] ∧
    (execOneCall c5Env c5Call).1.output =
      TracePayload.toolOutput (toolFailureOutput "connection reset") ∧
    (toolFailureOutput "connection reset").isError = true :=
  ⟨(c5_tool_failure_isolated c5Env [c5Call] [c5Call] c5Call "fs" "read_file"
      "connection reset" (by decide) rfl).1,
   (c5_tool_failure_isolated c5Env [c5Call] [c5Call] c5Call "fs" "read_file"
      "connection reset" (by decide) rfl).2.2.1.2,
   (c5_tool_failure_isolated c5Env [c5Call] [c5Call] c5Call "fs" "read_file"
      "connection reset" (by decide) rfl).2.2.2.1.1⟩

end ChatApp
